import Mathlib

/-!
Shallow embedding of the `faux` mock-call registry (src/src/lib.rs) and of
its call-count wrapper, together with proofs of the specification's claims.

The core of the library is the `Faux` store: two maps from call-site
identifiers (`TypeId` in Rust, modelled as `Nat`) to type-erased one-shot
behaviors.  The unchecked lane (`one_time_mocks`) erases types by
`std::mem::transmute`; calling it with the wrong types is undefined
behavior, modelled here as an explicit `UB` error.  The checked lane
(`safe_one_time_mocks`) routes inputs and outputs through `Box<dyn Any>`
with runtime downcasts whose failure panics, modelled as an explicit
`Panic` error.  Rust types are represented by a small code universe `Ty`
with decidable equality, mirroring `std::any::TypeId` comparisons, and
`Box<dyn Any>` by the dependent pair `Dyn`.
-/

/-- Call-site identifiers: `std::any::TypeId` used as an opaque hashable key. -/
abbrev TypeId := Nat

/-- A universe of codes for the concrete Rust types that can cross the
mock boundary; `TypeId` equality in Rust becomes decidable equality of codes. -/
inductive Ty
  | nat
  | int
  | bool
  | str
  | unit
  | pair (a b : Ty)
deriving DecidableEq, Repr

/-- Interpretation of type codes as Lean types. -/
def Ty.denote : Ty → Type
  | .nat => Nat
  | .int => Int
  | .bool => Bool
  | .str => String
  | .unit => Unit
  | .pair a b => a.denote × b.denote

/-- A `Box<dyn Any>`: a value carrying its own runtime type identity. -/
structure Dyn where
  ty : Ty
  val : ty.denote

/-- The `downcast` of `Box<dyn Any>`: succeeds exactly when the stored
type identity matches the requested one. -/
def Dyn.downcast (t : Ty) (d : Dyn) : Option t.denote :=
  if h : d.ty = t then some (h ▸ d.val) else none

/-- Outcome of a Rust panic (a failed `downcast().unwrap()`). -/
inductive Panic
  | downcastFailed
deriving DecidableEq, Repr

/-- Marker for undefined behavior: a `transmute` at mismatched types in the
unchecked lane. -/
inductive UB
  | ub
deriving DecidableEq, Repr

/-- An entry of the unchecked lane: the transmuted
`Box<dyn FnOnce(()) -> ()>` still is, in memory, a function between the
concrete types it was created at, so the model records those types with it. -/
structure UMock where
  inTy : Ty
  outTy : Ty
  fn : inTy.denote → outTy.denote

/-- An entry of the checked lane: `Box<dyn FnOnce(Box<dyn Any>) -> Box<dyn Any>>`,
which may panic (on its internal input downcast). -/
def SMock := Dyn → Except Panic Dyn

/-- HashMap lookup on an association list. -/
def lookupKey {α : Type _} : List (TypeId × α) → TypeId → Option α
  | [], _ => none
  | (k, v) :: rest, id => if k = id then some v else lookupKey rest id

/-- HashMap removal of a key on an association list. -/
def eraseKey {α : Type _} (m : List (TypeId × α)) (k : TypeId) : List (TypeId × α) :=
  m.filter (fun p => p.1 != k)

/-- HashMap `insert`: overwrites any previous entry for the key. -/
def insertKey {α : Type _} (m : List (TypeId × α)) (k : TypeId) (v : α) : List (TypeId × α) :=
  (k, v) :: eraseKey m k

/-- The two-lane behavior store `Faux` of src/src/lib.rs. -/
structure Faux where
  one_time_mocks : List (TypeId × UMock)
  safe_one_time_mocks : List (TypeId × SMock)

/-- `Faux::default()`: both maps empty. -/
def Faux.default : Faux := ⟨[], []⟩

/-- `Faux::mock_once` (src/src/lib.rs lines 136-140): box the mock, erase its
types by transmute, insert into `one_time_mocks`. -/
def Faux.mock_once (f : Faux) (id : TypeId) (I O : Ty) (mock : I.denote → O.denote) : Faux :=
  { f with one_time_mocks := insertKey f.one_time_mocks id ⟨I, O, mock⟩ }

/-- `Faux::call_mock` (src/src/lib.rs lines 142-146): remove the entry (`?` on
miss returns `None` with the store untouched), transmute it back at the
caller's chosen types, and call it.  A transmute at types other than the
ones the entry was stored at is undefined behavior, surfaced as `UB`. -/
def Faux.call_mock (f : Faux) (id : TypeId) (I O : Ty) (input : I.denote) :
    Except UB (Option O.denote) × Faux :=
  match lookupKey f.one_time_mocks id with
  | none => (.ok none, f)
  | some m =>
    let f2 := { f with one_time_mocks := eraseKey f.one_time_mocks id }
    if h : m.inTy = I ∧ m.outTy = O then
      (.ok (some (cast (congrArg Ty.denote h.2) (m.fn (cast (congrArg Ty.denote h.1.symm) input)))), f2)
    else
      (.error .ub, f2)

/-- `Faux::mock_once_safe` (src/src/lib.rs lines 148-159): wrap the mock in a
closure that downcasts the boxed input (`unwrap` panics on mismatch), applies
the mock, and boxes the output; insert into `safe_one_time_mocks`. -/
def Faux.mock_once_safe (f : Faux) (id : TypeId) (I O : Ty) (mock : I.denote → O.denote) : Faux :=
  let wrapped : SMock := fun input =>
    match input.downcast I with
    | none => .error .downcastFailed
    | some v => .ok ⟨O, mock v⟩
  { f with safe_one_time_mocks := insertKey f.safe_one_time_mocks id wrapped }

/-- `Faux::safe_call_mock` (src/src/lib.rs lines 161-165): remove the entry
(`?` on miss returns `None` with the store untouched), call it with the boxed
input, and downcast the boxed output (`unwrap` panics on mismatch). -/
def Faux.safe_call_mock (f : Faux) (id : TypeId) (I O : Ty) (input : I.denote) :
    Except Panic (Option O.denote) × Faux :=
  match lookupKey f.safe_one_time_mocks id with
  | none => (.ok none, f)
  | some mock =>
    let f2 := { f with safe_one_time_mocks := eraseKey f.safe_one_time_mocks id }
    match mock ⟨I, input⟩ with
    | .error p => (.error p, f2)
    | .ok out =>
      match out.downcast O with
      | none => (.error .downcastFailed, f2)
      | some o => (.ok (some o), f2)

/-- Call-count budget of a wrapped behavior: `times(n)` or the unrestricted
("always") variant. -/
inductive CallCount
  | bounded (remaining : Nat)
  | unbounded
deriving DecidableEq, Repr

/-- An entry of the call-count wrapper's registry: a budget together with the
registered behavior and its concrete types. -/
structure WEntry where
  cc : CallCount
  inTy : Ty
  outTy : Ty
  fn : inTy.denote → outTy.denote

/-- The call-count wrapper's registry, keyed by call-site identifier. -/
def WStore := List (TypeId × WEntry)

/-- Fatal outcomes of an invocation through the call-count wrapper. -/
inductive WErr
  | noBehavior
  | typeMismatch
deriving DecidableEq, Repr

/-- Modelled from the spec: the call-count wrapper surface (`times(n)`,
`once()`, `safe_then`) exercised by src/tests/multi_mock.rs is not part of
src/src/lib.rs.  Following section 4.2, `times(n)` registers the behavior
with a budget of `n` invocations. -/
def WStore.registerTimes (s : WStore) (id : TypeId) (n : Nat) (I O : Ty)
    (fn : I.denote → O.denote) : WStore :=
  insertKey s id ⟨.bounded n, I, O, fn⟩

/-- Modelled from the spec: the unrestricted ("always") variant registers a
behavior with unbounded invocation count. -/
def WStore.registerAlways (s : WStore) (id : TypeId) (I O : Ty)
    (fn : I.denote → O.denote) : WStore :=
  insertKey s id ⟨.unbounded, I, O, fn⟩

/-- Modelled from the spec, section 4.2's state machine: an invocation through
the call-count wrapper removes the consumed entry, produces the output, and
re-registers the still-usable behavior (budget decremented, or unchanged when
unbounded); an exhausted budget leaves the entry absent, and a lookup miss is
the fatal "no behavior available" path. -/
def WStore.invoke (s : WStore) (id : TypeId) (I O : Ty) (input : I.denote) :
    Except WErr O.denote × WStore :=
  match lookupKey s id with
  | none => (.error .noBehavior, s)
  | some e =>
    let s2 := eraseKey s id
    if h : e.inTy = I ∧ e.outTy = O then
      let out := cast (congrArg Ty.denote h.2) (e.fn (cast (congrArg Ty.denote h.1.symm) input))
      match e.cc with
      | .unbounded => (.ok out, insertKey s2 id e)
      | .bounded r =>
        if r ≤ 1 then (.ok out, s2)
        else (.ok out, insertKey s2 id ⟨.bounded (r - 1), e.inTy, e.outTy, e.fn⟩)
    else
      (.error .typeMismatch, s2)

/-- Results of `n` consecutive invocations through the call-count wrapper for
the same identifier and input, threading the registry state. -/
def WStore.invokeN (s : WStore) (id : TypeId) (I O : Ty) (input : I.denote) :
    Nat → List (Except WErr O.denote)
  | 0 => []
  | n + 1 =>
    let (r, s2) := s.invoke id I O input
    r :: s2.invokeN id I O input n

/-- Fatal outcome of an operation attempted while the context's cell is
already mutably borrowed: `RefCell::borrow_mut` panics (`BorrowMutError`). -/
inductive ReentrancyError
  | borrowConflict
deriving DecidableEq, Repr

/-- Modelled from the spec: the mock context of a mock-mode instance,
`MaybeFaux::Faux(RefCell<Faux>)` (src/src/lib.rs lines 116-126) as used by
the generated glue, which is not part of src/.  The store sits behind a
runtime-borrow-checked cell; `borrowed` records that an invocation on this
context is in progress, i.e. a mutable borrow of the cell is outstanding. -/
structure MockContext where
  store : Faux
  borrowed : Bool

/-- Modelled from the spec: an invocation on the context first takes the
cell's mutable borrow; while a behavior's own invocation is in progress the
cell is already borrowed, so a reentrant invoke fails fatally with a borrow
conflict and leaves the store untouched. -/
def MockContext.guardedInvoke (c : MockContext) (id : TypeId) (I O : Ty) (input : I.denote) :
    Except ReentrancyError (Except Panic (Option O.denote)) × MockContext :=
  if c.borrowed then (.error .borrowConflict, c)
  else
    let (r, f2) := c.store.safe_call_mock id I O input
    (.ok r, { c with store := f2 })

/-- Modelled from the spec: a registration on the context likewise takes the
cell's mutable borrow, so a registration attempted during an in-progress
invocation on the same context fails fatally and leaves the store untouched. -/
def MockContext.guardedRegister (c : MockContext) (id : TypeId) (I O : Ty)
    (mock : I.denote → O.denote) : Except ReentrancyError Unit × MockContext :=
  if c.borrowed then (.error .borrowConflict, c)
  else (.ok (), { c with store := c.store.mock_once_safe id I O mock })

/-- Removing a key leaves no entry for that key behind. -/
theorem lookupKey_eraseKey_self {α : Type _} (m : List (TypeId × α)) (k : TypeId) :
    lookupKey (eraseKey m k) k = none := by
  induction m with
  | nil => rfl
  | cons p rest ih =>
    obtain ⟨a, b⟩ := p
    by_cases h : a = k
    · simpa [eraseKey, List.filter_cons, h] using ih
    · simpa [eraseKey, List.filter_cons, h, lookupKey] using ih

/-- Removing one key does not change lookups of any other key. -/
theorem lookupKey_eraseKey_ne {α : Type _} (m : List (TypeId × α)) (k k2 : TypeId)
    (h : k ≠ k2) : lookupKey (eraseKey m k2) k = lookupKey m k := by
  induction m with
  | nil => rfl
  | cons p rest ih =>
    obtain ⟨a, b⟩ := p
    by_cases ha : a = k2
    · subst ha
      simp [eraseKey, List.filter_cons, lookupKey, Ne.symm h] at ih ⊢
      exact ih
    · by_cases hk : a = k
      · simp [eraseKey, List.filter_cons, lookupKey, ha, hk, h]
      · simp [eraseKey, List.filter_cons, lookupKey, ha, hk] at ih ⊢
        exact ih

/-- Removing an absent key leaves the map unchanged. -/
theorem eraseKey_of_lookupKey_none {α : Type _} (m : List (TypeId × α)) (k : TypeId)
    (h : lookupKey m k = none) : eraseKey m k = m := by
  induction m with
  | nil => rfl
  | cons p rest ih =>
    obtain ⟨a, b⟩ := p
    by_cases ha : a = k
    · simp [lookupKey, ha] at h
    · simp [lookupKey, ha] at h
      have h2 := ih h
      calc eraseKey ((a, b) :: rest) k = (a, b) :: eraseKey rest k := by
            simp [eraseKey, List.filter_cons, ha]
        _ = (a, b) :: rest := by rw [h2]

/-- An inserted entry is found by lookup. -/
theorem lookupKey_insertKey_self {α : Type _} (m : List (TypeId × α)) (k : TypeId) (v : α) :
    lookupKey (insertKey m k v) k = some v := by
  simp [insertKey, lookupKey]

/-- Inserting under one key does not change lookups of any other key. -/
theorem lookupKey_insertKey_ne {α : Type _} (m : List (TypeId × α)) (k k2 : TypeId) (v : α)
    (h : k2 ≠ k) : lookupKey (insertKey m k v) k2 = lookupKey m k2 := by
  simp [insertKey, lookupKey, Ne.symm h, lookupKey_eraseKey_ne m k2 k h]

/-- Removing a key twice is the same as removing it once. -/
theorem eraseKey_eraseKey {α : Type _} (m : List (TypeId × α)) (k : TypeId) :
    eraseKey (eraseKey m k) k = eraseKey m k := by
  simp [eraseKey, List.filter_filter]

/-- Removing the key just inserted recovers the map with that key removed. -/
theorem eraseKey_insertKey {α : Type _} (m : List (TypeId × α)) (k : TypeId) (v : α) :
    eraseKey (insertKey m k v) k = eraseKey m k := by
  simp [insertKey, eraseKey, List.filter_cons, List.filter_filter]

/-- Unchecked-lane invocation on a lookup miss: empty result, store untouched. -/
theorem call_mock_miss (f : Faux) (id : TypeId) (I O : Ty) (v : I.denote)
    (h : lookupKey f.one_time_mocks id = none) :
    f.call_mock id I O v = (.ok none, f) := by
  unfold Faux.call_mock
  rw [h]

/-- Unchecked-lane invocation on a hit at the entry's own types: the entry is
removed and its function applied. -/
theorem call_mock_hit (f : Faux) (id : TypeId) (I O : Ty) (g : I.denote → O.denote)
    (v : I.denote) (h : lookupKey f.one_time_mocks id = some ⟨I, O, g⟩) :
    f.call_mock id I O v =
      (.ok (some (g v)), { f with one_time_mocks := eraseKey f.one_time_mocks id }) := by
  unfold Faux.call_mock
  rw [h]
  exact dif_pos ⟨rfl, rfl⟩

/-- Checked-lane invocation on a lookup miss: empty result, store untouched. -/
theorem safe_call_mock_miss (f : Faux) (id : TypeId) (I O : Ty) (v : I.denote)
    (h : lookupKey f.safe_one_time_mocks id = none) :
    f.safe_call_mock id I O v = (.ok none, f) := by
  unfold Faux.safe_call_mock
  rw [h]

/-- Downcasting a boxed value at its own type succeeds. -/
theorem Dyn.downcast_self (t : Ty) (x : t.denote) : Dyn.downcast t ⟨t, x⟩ = some x :=
  dif_pos rfl

/-- Checked-lane invocation right after registering at the same types: the
entry is removed, both downcasts succeed, and the behavior's output is
returned. -/
theorem safe_call_mock_after_register (f : Faux) (id : TypeId) (I O : Ty)
    (g : I.denote → O.denote) (v : I.denote) :
    (f.mock_once_safe id I O g).safe_call_mock id I O v =
      (.ok (some (g v)),
        { f with safe_one_time_mocks := eraseKey f.safe_one_time_mocks id }) := by
  unfold Faux.safe_call_mock Faux.mock_once_safe
  rw [lookupKey_insertKey_self]
  dsimp only
  rw [Dyn.downcast_self]
  dsimp only
  rw [Dyn.downcast_self]
  dsimp only
  rw [eraseKey_insertKey]

/-- Downcasting a boxed value at a different type fails. -/
theorem Dyn.downcast_ne (t : Ty) (d : Dyn) (h : d.ty ≠ t) : d.downcast t = none :=
  dif_neg h

/-- Unchecked-lane invocation right after registering at the same types: the
entry is removed and the behavior's output is returned. -/
theorem call_mock_after_register (f : Faux) (id : TypeId) (I O : Ty)
    (g : I.denote → O.denote) (v : I.denote) :
    (f.mock_once id I O g).call_mock id I O v =
      (.ok (some (g v)), { f with one_time_mocks := eraseKey f.one_time_mocks id }) := by
  rw [call_mock_hit (f.mock_once id I O g) id I O g v
    (lookupKey_insertKey_self f.one_time_mocks id ⟨I, O, g⟩)]
  show (_, Faux.mk (eraseKey (insertKey f.one_time_mocks id ⟨I, O, g⟩) id) _) = _
  rw [eraseKey_insertKey]
  rfl

/-- Whatever the outcome of an unchecked-lane invocation, the post-state has
the entry erased and the checked lane untouched. -/
theorem call_mock_state (f : Faux) (id : TypeId) (I O : Ty) (v : I.denote) :
    (f.call_mock id I O v).2.one_time_mocks = eraseKey f.one_time_mocks id ∧
    (f.call_mock id I O v).2.safe_one_time_mocks = f.safe_one_time_mocks := by
  unfold Faux.call_mock
  split
  next hm => exact ⟨(eraseKey_of_lookupKey_none _ _ hm).symm, rfl⟩
  next m hm =>
    dsimp only
    split <;> exact ⟨rfl, rfl⟩

/-- Whatever the outcome of a checked-lane invocation, the post-state has the
entry erased and the unchecked lane untouched. -/
theorem safe_call_mock_state (f : Faux) (id : TypeId) (I O : Ty) (v : I.denote) :
    (f.safe_call_mock id I O v).2.safe_one_time_mocks = eraseKey f.safe_one_time_mocks id ∧
    (f.safe_call_mock id I O v).2.one_time_mocks = f.one_time_mocks := by
  unfold Faux.safe_call_mock
  split
  next hm => exact ⟨(eraseKey_of_lookupKey_none _ _ hm).symm, rfl⟩
  next mock hm =>
    dsimp only
    split
    · exact ⟨rfl, rfl⟩
    · split <;> exact ⟨rfl, rfl⟩

/-- Inserting twice under one key keeps only the second entry. -/
theorem insertKey_insertKey {α : Type _} (m : List (TypeId × α)) (k : TypeId) (v1 v2 : α) :
    insertKey (insertKey m k v1) k v2 = insertKey m k v2 := by
  show (k, v2) :: eraseKey (insertKey m k v1) k = (k, v2) :: eraseKey m k
  rw [eraseKey_insertKey]

/-- C1: in either lane, after a behavior is registered under an identifier,
the first invocation at the registered types succeeds and returns the
behavior's output, and a second invocation with no intervening registration
returns the empty "no behavior" result; for every identifier, behavior, and
prior store contents. -/
theorem consume_once (f : Faux) (id : TypeId) (I O : Ty) (g : I.denote → O.denote)
    (v w : I.denote) :
    (((f.mock_once id I O g).call_mock id I O v).1 = .ok (some (g v)) ∧
      (((f.mock_once id I O g).call_mock id I O v).2.call_mock id I O w).1 = .ok none) ∧
    (((f.mock_once_safe id I O g).safe_call_mock id I O v).1 = .ok (some (g v)) ∧
      (((f.mock_once_safe id I O g).safe_call_mock id I O v).2.safe_call_mock id I O w).1 =
        .ok none) := by
  rw [call_mock_after_register, safe_call_mock_after_register]
  refine ⟨⟨rfl, ?_⟩, rfl, ?_⟩
  · rw [call_mock_miss _ _ _ _ _ (lookupKey_eraseKey_self f.one_time_mocks id)]
  · rw [safe_call_mock_miss _ _ _ _ _ (lookupKey_eraseKey_self f.safe_one_time_mocks id)]

/-- C2: round-trip typing on the checked lane: for every input value of the
input type used at registration, invoking right after registering restores
the concrete types and returns exactly the behavior applied to the input,
for all representable input/output type pairs. -/
theorem round_trip_typing (f : Faux) (id : TypeId) (I O : Ty)
    (g : I.denote → O.denote) (v : I.denote) :
    ((f.mock_once_safe id I O g).safe_call_mock id I O v).1 = .ok (some (g v)) := by
  rw [safe_call_mock_after_register]

/-- C6: a lookup miss is empty and effect-free: with no entry under the
identifier in the chosen lane, invocation returns the empty result and the
whole store (both lanes) is returned exactly as it was, no behavior called. -/
theorem lookup_miss_empty_effect_free (f : Faux) (id : TypeId) (I O I2 O2 : Ty)
    (v : I.denote) (w : I2.denote) :
    (lookupKey f.one_time_mocks id = none → f.call_mock id I O v = (.ok none, f)) ∧
    (lookupKey f.safe_one_time_mocks id = none →
      f.safe_call_mock id I2 O2 w = (.ok none, f)) :=
  ⟨call_mock_miss f id I O v, safe_call_mock_miss f id I2 O2 w⟩

/-- Witness for C6 at the empty store, identifier 0 and type `nat`. -/
theorem lookup_miss_empty_effect_free_witness :
    (lookupKey Faux.default.one_time_mocks 0 = none ∧
      Faux.default.call_mock 0 Ty.nat Ty.nat (0 : Nat) = (.ok none, Faux.default)) ∧
    (lookupKey Faux.default.safe_one_time_mocks 0 = none ∧
      Faux.default.safe_call_mock 0 Ty.nat Ty.nat (0 : Nat) = (.ok none, Faux.default)) :=
  ⟨⟨rfl, (lookup_miss_empty_effect_free Faux.default 0 Ty.nat Ty.nat Ty.nat Ty.nat
      (0 : Nat) (0 : Nat)).1 rfl⟩,
   ⟨rfl, (lookup_miss_empty_effect_free Faux.default 0 Ty.nat Ty.nat Ty.nat Ty.nat
      (0 : Nat) (0 : Nat)).2 rfl⟩⟩

/-- C10: in both lanes the entry is removed before the behavior runs and is
never restored: whatever the invocation's outcome (success, checked-lane
downcast panic, or unchecked-lane type confusion), the post-state's lane is
the pre-state's lane with the entry erased, and a subsequent invocation for
the same identifier without re-registration returns "no behavior". -/
theorem entry_consumed_no_rollback (f : Faux) (id : TypeId) (I O I2 O2 : Ty)
    (v : I.denote) (w : I2.denote) :
    ((f.call_mock id I O v).2.one_time_mocks = eraseKey f.one_time_mocks id ∧
      ((f.call_mock id I O v).2.call_mock id I2 O2 w).1 = .ok none) ∧
    ((f.safe_call_mock id I O v).2.safe_one_time_mocks = eraseKey f.safe_one_time_mocks id ∧
      ((f.safe_call_mock id I O v).2.safe_call_mock id I2 O2 w).1 = .ok none) := by
  have h1 := call_mock_state f id I O v
  have h2 := safe_call_mock_state f id I O v
  have k1 : lookupKey (f.call_mock id I O v).2.one_time_mocks id = none := by
    rw [h1.1]
    exact lookupKey_eraseKey_self f.one_time_mocks id
  have k2 : lookupKey (f.safe_call_mock id I O v).2.safe_one_time_mocks id = none := by
    rw [h2.1]
    exact lookupKey_eraseKey_self f.safe_one_time_mocks id
  exact ⟨⟨h1.1, by rw [call_mock_miss _ _ _ _ _ k1]⟩,
    h2.1, by rw [safe_call_mock_miss _ _ _ _ _ k2]⟩

/-- C5: a checked-lane type mismatch fails loudly and distinctly: invoking a
behavior registered at one type pair while requesting a different input or
output type yields the downcast panic, which is never a silently coerced
value and is distinct from the empty "no behavior" result of a lookup miss. -/
theorem checked_type_mismatch_panics (f : Faux) (id : TypeId) (I O I2 O2 : Ty)
    (g : I.denote → O.denote) (w : I2.denote) (h : ¬(I2 = I ∧ O2 = O)) :
    ((f.mock_once_safe id I O g).safe_call_mock id I2 O2 w).1 = .error .downcastFailed ∧
    ((f.mock_once_safe id I O g).safe_call_mock id I2 O2 w).1 ≠ .ok none := by
  have key : ((f.mock_once_safe id I O g).safe_call_mock id I2 O2 w).1 =
      .error .downcastFailed := by
    unfold Faux.safe_call_mock Faux.mock_once_safe
    rw [lookupKey_insertKey_self]
    dsimp only
    by_cases hI : I2 = I
    · subst hI
      rw [Dyn.downcast_self]
      dsimp only
      rw [Dyn.downcast_ne O2 ⟨O, g w⟩ (fun hh => h ⟨rfl, hh.symm⟩)]
    · rw [Dyn.downcast_ne I ⟨I2, w⟩ hI]
  exact ⟨key, by rw [key]; exact fun hc => Except.noConfusion hc⟩

/-- Witness for C5: a behavior registered at `nat -> nat` invoked requesting
`bool -> nat` panics with the downcast failure. -/
theorem checked_type_mismatch_panics_witness :
    ¬(Ty.bool = Ty.nat ∧ Ty.nat = Ty.nat) ∧
    (((Faux.default.mock_once_safe 0 Ty.nat Ty.nat (fun x => x)).safe_call_mock
        0 Ty.bool Ty.nat (true : Bool)).1 = .error .downcastFailed ∧
      ((Faux.default.mock_once_safe 0 Ty.nat Ty.nat (fun x => x)).safe_call_mock
        0 Ty.bool Ty.nat (true : Bool)).1 ≠ .ok none) :=
  ⟨by decide,
   checked_type_mismatch_panics Faux.default 0 Ty.nat Ty.nat Ty.bool Ty.nat
     (fun x => x) (true : Bool) (by decide)⟩

/-- C7: last write wins: a second registration under the same identifier in
the same lane leaves exactly the store of a single registration of the second
behavior, a subsequent invocation runs the most recently registered behavior,
and registration touches nothing beyond its own lane's map. -/
theorem last_write_wins (f : Faux) (id : TypeId) (I O I2 O2 : Ty)
    (g : I.denote → O.denote) (g2 : I2.denote → O2.denote) (v : I2.denote) :
    (((f.mock_once id I O g).mock_once id I2 O2 g2).one_time_mocks =
        (f.mock_once id I2 O2 g2).one_time_mocks ∧
      (((f.mock_once id I O g).mock_once id I2 O2 g2).call_mock id I2 O2 v).1 =
        .ok (some (g2 v)) ∧
      ((f.mock_once id I O g).mock_once id I2 O2 g2).safe_one_time_mocks =
        f.safe_one_time_mocks) ∧
    (((f.mock_once_safe id I O g).mock_once_safe id I2 O2 g2).safe_one_time_mocks =
        (f.mock_once_safe id I2 O2 g2).safe_one_time_mocks ∧
      (((f.mock_once_safe id I O g).mock_once_safe id I2 O2 g2).safe_call_mock
          id I2 O2 v).1 = .ok (some (g2 v)) ∧
      ((f.mock_once_safe id I O g).mock_once_safe id I2 O2 g2).one_time_mocks =
        f.one_time_mocks) := by
  refine ⟨⟨?_, ?_, rfl⟩, ?_, ?_, rfl⟩
  · exact insertKey_insertKey f.one_time_mocks id _ _
  · rw [call_mock_after_register]
  · exact insertKey_insertKey f.safe_one_time_mocks id _ _
  · rw [safe_call_mock_after_register]

/-- C8: identifier isolation: registering under one identifier leaves the
result of any subsequent invocation for a different identifier, in the same
lane, exactly what it would have been without that registration. -/
theorem identifier_isolation (f : Faux) (id1 id2 : TypeId) (h : id1 ≠ id2)
    (I O I2 O2 : Ty) (g : I.denote → O.denote) (w : I2.denote) :
    ((f.mock_once id1 I O g).call_mock id2 I2 O2 w).1 = (f.call_mock id2 I2 O2 w).1 ∧
    ((f.mock_once_safe id1 I O g).safe_call_mock id2 I2 O2 w).1 =
      (f.safe_call_mock id2 I2 O2 w).1 := by
  constructor
  · unfold Faux.call_mock
    rw [show lookupKey (f.mock_once id1 I O g).one_time_mocks id2 =
        lookupKey f.one_time_mocks id2 from
      lookupKey_insertKey_ne f.one_time_mocks id1 id2 _ (Ne.symm h)]
    cases lookupKey f.one_time_mocks id2 with
    | none => rfl
    | some m =>
      dsimp only
      by_cases hc : m.inTy = I2 ∧ m.outTy = O2
      · rw [dif_pos hc, dif_pos hc]
      · rw [dif_neg hc, dif_neg hc]
  · unfold Faux.safe_call_mock
    rw [show lookupKey (f.mock_once_safe id1 I O g).safe_one_time_mocks id2 =
        lookupKey f.safe_one_time_mocks id2 from
      lookupKey_insertKey_ne f.safe_one_time_mocks id1 id2 _ (Ne.symm h)]
    cases lookupKey f.safe_one_time_mocks id2 with
    | none => rfl
    | some mock =>
      dsimp only
      cases mock ⟨I2, w⟩ with
      | error p => rfl
      | ok out =>
        dsimp only
        cases Dyn.downcast O2 out with
        | none => rfl
        | some o => rfl

/-- Witness for C8 with identifiers 0 and 1 over the empty store. -/
theorem identifier_isolation_witness :
    (0 : TypeId) ≠ 1 ∧
    (((Faux.default.mock_once 0 Ty.nat Ty.nat (fun x => x)).call_mock
        1 Ty.nat Ty.nat (5 : Nat)).1 = (Faux.default.call_mock 1 Ty.nat Ty.nat (5 : Nat)).1 ∧
      ((Faux.default.mock_once_safe 0 Ty.nat Ty.nat (fun x => x)).safe_call_mock
        1 Ty.nat Ty.nat (5 : Nat)).1 =
        (Faux.default.safe_call_mock 1 Ty.nat Ty.nat (5 : Nat)).1) :=
  ⟨by decide,
   identifier_isolation Faux.default 0 1 (by decide) Ty.nat Ty.nat Ty.nat Ty.nat
     (fun x => x) (5 : Nat)⟩

/-- C9: reentrancy is fatal, not corrupting: while an invocation on a mock
context is in progress (the context's cell is mutably borrowed), a nested
invocation or registration on the same context is detected as a borrow
conflict, reported fatally, and leaves the context's store unchanged. -/
theorem reentrancy_fatal (c : MockContext) (h : c.borrowed = true) (id : TypeId)
    (I O I2 O2 : Ty) (v : I.denote) (g : I2.denote → O2.denote) :
    c.guardedInvoke id I O v = (.error .borrowConflict, c) ∧
    c.guardedRegister id I2 O2 g = (.error .borrowConflict, c) := by
  unfold MockContext.guardedInvoke MockContext.guardedRegister
  rw [h]
  exact ⟨rfl, rfl⟩

/-- Witness for C9 on a context whose cell is mutably borrowed. -/
theorem reentrancy_fatal_witness :
    (MockContext.mk Faux.default true).borrowed = true ∧
    ((MockContext.mk Faux.default true).guardedInvoke 0 Ty.nat Ty.nat (0 : Nat) =
        (.error .borrowConflict, MockContext.mk Faux.default true) ∧
      (MockContext.mk Faux.default true).guardedRegister 0 Ty.nat Ty.nat (fun x => x) =
        (.error .borrowConflict, MockContext.mk Faux.default true)) :=
  ⟨rfl, reentrancy_fatal (MockContext.mk Faux.default true) rfl 0 Ty.nat Ty.nat
    Ty.nat Ty.nat (0 : Nat) (fun x => x)⟩

/-- Inserting over an erased key is the same as inserting over the original. -/
theorem insertKey_eraseKey_self {α : Type _} (m : List (TypeId × α)) (k : TypeId) (v : α) :
    insertKey (eraseKey m k) k v = insertKey m k v := by
  unfold insertKey
  rw [eraseKey_eraseKey]

/-- Wrapper invocation on a lookup miss: the fatal "no behavior" outcome. -/
theorem invoke_miss (s : WStore) (id : TypeId) (I O : Ty) (v : I.denote)
    (h : lookupKey s id = none) :
    WStore.invoke s id I O v = (.error .noBehavior, s) := by
  unfold WStore.invoke
  rw [h]

/-- Wrapper invocation of an unbounded entry: success, and the behavior is
re-registered unchanged. -/
theorem invoke_always (s : WStore) (id : TypeId) (I O : Ty)
    (fn : I.denote → O.denote) (v : I.denote) :
    WStore.invoke (insertKey s id ⟨.unbounded, I, O, fn⟩) id I O v =
      (.ok (fn v), insertKey s id ⟨.unbounded, I, O, fn⟩) := by
  unfold WStore.invoke
  rw [lookupKey_insertKey_self]
  dsimp only
  rw [dif_pos (⟨rfl, rfl⟩ : I = I ∧ O = O)]
  rw [eraseKey_insertKey, insertKey_eraseKey_self]
  rfl

/-- Wrapper invocation of an entry on its last budgeted call: success, and
the entry is left absent (exhausted). -/
theorem invoke_bounded_last (s : WStore) (id : TypeId) (I O : Ty)
    (fn : I.denote → O.denote) (v : I.denote) :
    WStore.invoke (insertKey s id ⟨.bounded 1, I, O, fn⟩) id I O v =
      (.ok (fn v), eraseKey s id) := by
  unfold WStore.invoke
  rw [lookupKey_insertKey_self]
  dsimp only
  rw [dif_pos (⟨rfl, rfl⟩ : I = I ∧ O = O)]
  rw [if_pos (Nat.le_refl 1)]
  rw [eraseKey_insertKey]
  rfl

/-- Wrapper invocation of an entry with at least two calls left: success, and
the behavior is re-registered with the budget decremented. -/
theorem invoke_bounded_step (s : WStore) (id : TypeId) (I O : Ty)
    (fn : I.denote → O.denote) (v : I.denote) (r : Nat) (h : 2 ≤ r) :
    WStore.invoke (insertKey s id ⟨.bounded r, I, O, fn⟩) id I O v =
      (.ok (fn v), insertKey s id ⟨.bounded (r - 1), I, O, fn⟩) := by
  unfold WStore.invoke
  rw [lookupKey_insertKey_self]
  dsimp only
  rw [dif_pos (⟨rfl, rfl⟩ : I = I ∧ O = O)]
  rw [if_neg (by omega : ¬ r ≤ 1)]
  rw [eraseKey_insertKey, insertKey_eraseKey_self]
  rfl

/-- One step of iterated wrapper invocation. -/
theorem invokeN_succ (s : WStore) (id : TypeId) (I O : Ty) (v : I.denote) (n : Nat) :
    s.invokeN id I O v (n + 1) =
      (s.invoke id I O v).1 :: (s.invoke id I O v).2.invokeN id I O v n := by
  cases h : WStore.invoke s id I O v with
  | mk r s2 => simp only [WStore.invokeN, h]

/-- A single iterated wrapper invocation. -/
theorem invokeN_one (s : WStore) (id : TypeId) (I O : Ty) (v : I.denote) :
    s.invokeN id I O v 1 = [(s.invoke id I O v).1] :=
  invokeN_succ s id I O v 0

/-- After registering with budget `n ≥ 1`, the first `n` wrapper invocations
succeed and the `(n+1)`-th is the fatal "no behavior" outcome, over any
prior registry contents. -/
theorem invokeN_bounded (id : TypeId) (I O : Ty) (fn : I.denote → O.denote)
    (v : I.denote) :
    ∀ n, 1 ≤ n → ∀ s : WStore,
      WStore.invokeN (insertKey s id ⟨.bounded n, I, O, fn⟩) id I O v (n + 1) =
        List.replicate n (.ok (fn v)) ++ [.error .noBehavior] := by
  intro n
  induction n with
  | zero => intro h; exact absurd h (by omega)
  | succ m ih =>
    intro _ s
    rcases Nat.eq_zero_or_pos m with h0 | hm
    · subst h0
      simp only [Nat.zero_add]
      rw [invokeN_succ, invoke_bounded_last s id I O fn v]
      dsimp only
      rw [invokeN_one, invoke_miss _ _ _ _ _ (lookupKey_eraseKey_self s id)]
      rfl
    · have h2 : 2 ≤ m + 1 := by omega
      rw [invokeN_succ, invoke_bounded_step s id I O fn v (m + 1) h2]
      dsimp only
      rw [show m + 1 - 1 = m from rfl]
      rw [ih hm s]
      rw [List.replicate_succ]
      rfl

/-- C3: bounded budget: for every positive `n`, after registering a behavior
via `times(n)`, the first `n` invocations each succeed and return the
configured output, and the `(n+1)`-th invocation finds no entry and takes the
fatal "no behavior available" path. -/
theorem bounded_budget (s : WStore) (id : TypeId) (n : Nat) (h : 1 ≤ n) (I O : Ty)
    (fn : I.denote → O.denote) (v : I.denote) :
    (s.registerTimes id n I O fn).invokeN id I O v (n + 1) =
      List.replicate n (.ok (fn v)) ++ [.error .noBehavior] :=
  invokeN_bounded id I O fn v n h s

/-- Witness for C3 with budget 3 and the configured output 3, mirroring the
`limited` / `limited_past_limit` tests. -/
theorem bounded_budget_witness :
    1 ≤ 3 ∧
    (WStore.registerTimes [] 0 3 Ty.unit Ty.nat (fun _ => (3 : Nat))).invokeN
        0 Ty.unit Ty.nat () 4 =
      List.replicate 3 (.ok (3 : Nat)) ++ [.error .noBehavior] :=
  ⟨by omega, bounded_budget [] 0 3 (by omega) Ty.unit Ty.nat (fun _ => (3 : Nat)) ()⟩

/-- After registering via the unrestricted variant, every one of `N`
consecutive wrapper invocations succeeds with the configured output, over any
prior registry contents. -/
theorem invokeN_always (s : WStore) (id : TypeId) (I O : Ty)
    (fn : I.denote → O.denote) (v : I.denote) (N : Nat) :
    WStore.invokeN (insertKey s id ⟨.unbounded, I, O, fn⟩) id I O v N =
      List.replicate N (.ok (fn v)) := by
  induction N with
  | zero => rfl
  | succ n ih =>
    rw [invokeN_succ, invoke_always s id I O fn v]
    dsimp only
    rw [ih, List.replicate_succ]

/-- C4: unbounded repeatability: after registering a behavior via the
unrestricted ("always") variant, invocation succeeds on every one of `N`
consecutive calls for any `N ≥ 0`, each time returning the configured
output. -/
theorem unbounded_repeatability (s : WStore) (id : TypeId) (I O : Ty)
    (fn : I.denote → O.denote) (v : I.denote) (N : Nat) :
    (s.registerAlways id I O fn).invokeN id I O v N = List.replicate N (.ok (fn v)) :=
  invokeN_always s id I O fn v N
